import Mathlib

/-!
Shallow embedding of the FPL transfer-tracking bot (`bot.py`): the state
reconciliation engine `check_for_new_transfers`, the state-file helpers
`load_state` / `save_state`, and the display helper `escape_markdown`,
together with theorems checking the specification's claims about them.

Modelling conventions:
- The network/scrape layer (`login_to_fix`, `scrape_target_transfers`) is
  external: its outcome enters the engine as a `loginOk` flag and the
  scraped `(transfers, chip, gameweek string)` triple, `gameweek` being
  `none` exactly when the scraper could not find the gameweek header.
- A call to `save_state` is recorded explicitly as a `SaveCall` value, so
  that "no state write occurred" is distinguishable from "the same state
  was written back"; a failing file write (an `OSError` escaping
  `save_state`) is modelled by the `saveOk` flag and surfaces as
  `Except.error`, mirroring the exception propagating out of
  `check_for_new_transfers`.
- Python iterates the set `new_transfers` in an order determined by the
  runtime's string hashing; this enumeration is the explicit parameter
  `setToList` of the embedding.
- The persisted baseline handed to the engine is decoded into
  `PersistedState`, well-formed per the spec's State Store contract; the
  raw JSON document shape handled by `load_state` is modelled separately.
-/

namespace FplBot

/-- A transfer pair `(outgoing player, incoming player)`; `bot.py` stores
these as two-element lists and compares them as tuples. -/
abbrev Pair := String × String

/-- The reserved-character string of `escape_markdown` in `bot.py`
(line 32): the raw Python string `_*[]()~` backtick `>#+-=|` braces `.!`,
as a list of characters. -/
def escape_chars : List Char := "_*[]()~\x60>#+-=|\x7b\x7d.!".toList

/-- Helper escape_markdown (bot.py lines 31-33): prefix every character of
the reserved set with a backslash, leave every other character unchanged. -/
def escape_markdown (text : String) : String :=
  String.join (text.data.map fun c =>
    if c ∈ escape_chars then String.mk ['\\', c] else String.mk [c])

/-- Python `int()` restricted to the decimal digit strings the engine
feeds it: the gameweek token always matches the regex group `(\d+)` in
`scrape_target_transfers`, so `int` is the decimal value of the digits. -/
def pyInt (s : String) : Int :=
  ((s.data.foldl (fun n c => 10 * n + (c.toNat - 48)) 0 : Nat) : Int)

/-- JSON documents, as far as the state file is concerned. (JSON numbers
are modelled as integers; the state file only ever holds gameweek
numbers.) -/
inductive Json where
  | null
  | bool (b : Bool)
  | num (n : Int)
  | str (s : String)
  | arr (items : List Json)
  | obj (fields : List (String × Json))

/-- The reset document `{"gameweek": None, "transfers": []}` produced by
`load_state` on a missing, unparseable or legacy-format file. -/
def defaultStateDoc : Json := .obj [("gameweek", .null), ("transfers", .arr [])]

/-- Python `key in dict` on the decoded object's field list. -/
def hasKey (fields : List (String × Json)) (k : String) : Bool :=
  fields.any (fun p => p.1 == k)

/-- Function load_state (bot.py lines 36-48). The argument is the parsed
file content: `none` models `FileNotFoundError` or `json.JSONDecodeError`.
A dict containing both the `gameweek` and `transfers` keys is returned
unchanged; anything else resets to the default state. -/
def load_state (file : Option Json) : Json :=
  match file with
  | none => defaultStateDoc
  | some data =>
    match data with
    | .obj fields =>
      if hasKey fields "gameweek" && hasKey fields "transfers" then .obj fields
      else defaultStateDoc
    | _ => defaultStateDoc

/-- A stored document of the shape load_state accepts: a JSON object
carrying both the gameweek key and the transfers key. -/
def valid_doc : Json → Prop := fun d =>
  ∃ fields, d = .obj fields ∧
    "gameweek" ∈ fields.map Prod.fst ∧ "transfers" ∈ fields.map Prod.fst

/-- The decoded persisted baseline the engine works with: the
`{"gameweek": ..., "transfers": ...}` document after `load_state`, with
`gameweek = none` for JSON `null` (the default state). -/
structure PersistedState where
  gameweek : Option Int
  transfers : List Pair
  deriving DecidableEq

/-- One call to `save_state` (bot.py lines 50-54): the exact arguments
written to the state file as `{"gameweek": gameweek, "transfers":
transfers}`. -/
structure SaveCall where
  gameweek : Int
  transfers : List Pair
  deriving DecidableEq

/-- Message of bot.py line 146 (login failure; the source file's literal
characters, which are double-encoded emoji, are reproduced exactly). -/
def loginFailedMsg : String :=
  "âŒ *Login Failed*\nCould not log in to Fantasy Football Fix\\."

/-- Message of bot.py line 150 (gameweek extraction failure). -/
def scrapingErrorMsg : String :=
  "âš ï¸ *Scraping Error*\nCould not find the current gameweek\\."

/-- Message of bot.py line 163 (gameweek rollover, no transfers yet). -/
def gwUpdatedMsg (current_gameweek : Int) : String :=
  " Gameweek has updated to *GW " ++ toString current_gameweek ++
    "*\\. No transfers made yet\\."

/-- Python expression `chip or "None"` (bot.py lines 166 and 187): both
the absent chip and the empty string are falsy, yielding the text
"None". -/
def chipOrNone : Option String → String
  | none => "None"
  | some s => if s = "" then "None" else s

/-- One `OUT:` line of the transfer report (bot.py lines 169 and 191). -/
def outLine (p : String) : String :=
  "ðŸ”´ OUT: \x60" ++ escape_markdown p ++ "\x60"

/-- One `IN:` line of the transfer report (bot.py lines 170 and 192). -/
def inLine (p : String) : String :=
  "ðŸŸ¢ IN: \x60" ++ escape_markdown p ++ "\x60\n"

/-- The per-pair report lines appended by the loop over transfer pairs. -/
def pairLines : List Pair → List String
  | [] => []
  | p :: rest => outLine p.1 :: inLine p.2 :: pairLines rest

/-- Message of bot.py lines 165-171 (first transfers of a new gameweek),
already joined with newlines. -/
def firstTransfersMsg (current_gameweek : Int) (chip : Option String)
    (transfers : List Pair) : String :=
  String.intercalate "\n"
    (("ðŸš€ *First Transfers for GW " ++ toString current_gameweek ++
        " Detected* ðŸš€\n")
      :: ("Chip Active: *" ++ escape_markdown (chipOrNone chip) ++ "*\n")
      :: pairLines transfers)

/-- Message of bot.py line 181 (same gameweek, empty delta). -/
def noNewMsg (current_gameweek : Int) : String :=
  "âœ… *No new transfers for GW " ++ toString current_gameweek ++
    "* since the last check\\."

/-- Message of bot.py lines 186-194 (same gameweek, non-empty delta),
built from the delta in the order the runtime enumerates the set. -/
def newTransfersMsg (current_gameweek : Int) (chip : Option String)
    (newList : List Pair) : String :=
  String.intercalate "\n"
    (("ðŸš¨ *New Transfers Detected for GW " ++ toString current_gameweek ++
        "* ðŸš¨\n")
      :: ("Chip Active: *" ++ escape_markdown (chipOrNone chip) ++ "*\n")
      :: "*New Transfers:*\n"
      :: pairLines newList)

/-- The engine check_for_new_transfers (bot.py lines 137-194).

`setToList` is the runtime's enumeration of a Python set (the iteration
order of `new_transfers`, which depends on string hashing); `loginOk` is
the result of `login_to_fix`; `saveOk` is whether the file write inside
`save_state` succeeds — when it fails, the `OSError` propagates out of
the function, modelled as `Except.error ()`.

The `Except.ok` payload is the returned `(message, noteworthy)` pair
together with the `save_state` call performed during the run (`none`
when no write happened). -/
def check_for_new_transfers (setToList : Finset Pair → List Pair)
    (loginOk saveOk : Bool)
    (current_transfers : List Pair) (chip : Option String)
    (current_gameweek_str : Option String)
    (saved_state : PersistedState) :
    Except Unit (String × Bool × Option SaveCall) :=
  if !loginOk then
    .ok (loginFailedMsg, false, none)
  else
    match current_gameweek_str with
    | none => .ok (scrapingErrorMsg, false, none)
    | some gwStr =>
      let current_gameweek : Int := pyInt gwStr
      if some current_gameweek ≠ saved_state.gameweek then
        -- Case 1: gameweek has changed; save_state runs before the branch
        if !saveOk then .error ()
        else if current_transfers.isEmpty then
          .ok (gwUpdatedMsg current_gameweek, false,
            some ⟨current_gameweek, current_transfers⟩)
        else
          .ok (firstTransfersMsg current_gameweek chip current_transfers, true,
            some ⟨current_gameweek, current_transfers⟩)
      else
        -- Case 2: same gameweek, diff the tuple sets
        let new_transfers :=
          current_transfers.toFinset \ saved_state.transfers.toFinset
        if new_transfers = ∅ then
          .ok (noNewMsg current_gameweek, false, none)
        else if !saveOk then .error ()
        else
          .ok (newTransfersMsg current_gameweek chip (setToList new_transfers), true,
            some ⟨current_gameweek, current_transfers⟩)

/-- Lexicographic order on transfer pairs, used to name one concrete,
deterministic enumeration of a finite set of pairs. -/
def pairLE (a b : Pair) : Prop := a.1 < b.1 ∨ (a.1 = b.1 ∧ a.2 ≤ b.2)

instance : DecidableRel pairLE := fun a b => by
  unfold pairLE; infer_instance

instance : IsTrans Pair pairLE := by
  constructor
  rintro a b c (hab | ⟨hab, hab2⟩) (hbc | ⟨hbc, hbc2⟩)
  · exact Or.inl (lt_trans hab hbc)
  · exact Or.inl (hbc ▸ hab)
  · exact Or.inl (hab ▸ hbc)
  · exact Or.inr ⟨hab.trans hbc, le_trans hab2 hbc2⟩

instance : IsAntisymm Pair pairLE := by
  constructor
  rintro ⟨a1, a2⟩ ⟨b1, b2⟩ (hab | ⟨hab, hab2⟩) (hba | ⟨hba, hba2⟩)
  · exact absurd (lt_trans hab hba) (lt_irrefl a1)
  · exact absurd hab (hba ▸ lt_irrefl b1)
  · exact absurd hba (hab ▸ lt_irrefl a1)
  · exact Prod.ext hab (le_antisymm hab2 hba2)

instance : IsTotal Pair pairLE := by
  constructor
  intro a b
  rcases lt_trichotomy a.1 b.1 with h | h | h
  · exact Or.inl (Or.inl h)
  · rcases le_total a.2 b.2 with h2 | h2
    · exact Or.inl (Or.inr ⟨h, h2⟩)
    · exact Or.inr (Or.inr ⟨h.symm, h2⟩)
  · exact Or.inr (Or.inl h)

/-- Sorting a multiset of pairs by insertion sort; well-defined because a
sorted permutation is unique for an antisymmetric total order. -/
def sortPairs (m : Multiset Pair) : List Pair :=
  Quot.liftOn m (fun l => l.insertionSort pairLE) fun l₁ l₂ h =>
    List.eq_of_perm_of_sorted
      ((List.perm_insertionSort pairLE l₁).trans
        (h.trans (List.perm_insertionSort pairLE l₂).symm))
      (List.sorted_insertionSort pairLE l₁)
      (List.sorted_insertionSort pairLE l₂)

/-- One concrete deterministic enumeration of a finite set of pairs. -/
def setList (s : Finset Pair) : List Pair := sortPairs s.val

instance exceptDecEq {ε α : Type} [DecidableEq ε] [DecidableEq α] :
    DecidableEq (Except ε α) := fun x y =>
  match x, y with
  | .error a, .error b =>
    if h : a = b then .isTrue (congrArg Except.error h)
    else .isFalse (fun hc => h (Except.error.inj hc))
  | .error _, .ok _ => .isFalse (fun hc => Except.noConfusion hc)
  | .ok _, .error _ => .isFalse (fun hc => Except.noConfusion hc)
  | .ok a, .ok b =>
    if h : a = b then .isTrue (congrArg Except.ok h)
    else .isFalse (fun hc => h (Except.ok.inj hc))

/-- Effect of a run's recorded `save_state` call on the stored state. -/
def applyWrite (w : Option SaveCall) (st : PersistedState) : PersistedState :=
  match w with
  | none => st
  | some c => { gameweek := some c.gameweek, transfers := c.transfers }

/-- The stored state after one invocation: unchanged when the run ended
in an exception or performed no write. -/
def nextState (setToList : Finset Pair → List Pair) (loginOk saveOk : Bool)
    (current_transfers : List Pair) (chip : Option String)
    (current_gameweek_str : Option String) (st : PersistedState) :
    PersistedState :=
  match check_for_new_transfers setToList loginOk saveOk current_transfers chip
      current_gameweek_str st with
  | .error _ => st
  | .ok (_, _, w) => applyWrite w st

/-- The noteworthy flag of a run (an exception delivers no outcome, hence
nothing noteworthy). -/
def noteOf : Except Unit (String × Bool × Option SaveCall) → Bool
  | .error _ => false
  | .ok (_, b, _) => b

/-- A sequence of successful checks against the same scraped gameweek
string, each starting from the state the previous one left behind. -/
def runList (s : String) (snaps : List (List Pair)) (st : PersistedState) :
    PersistedState :=
  snaps.foldl
    (fun acc pairs => nextState setList true true pairs none (some s) acc) st

/-! Theorems. -/

/-- Membership in the sorted enumeration of a multiset. -/
theorem mem_sortPairs (m : Multiset Pair) (a : Pair) :
    a ∈ sortPairs m ↔ a ∈ m :=
  Quot.inductionOn m fun l => by
    simp [sortPairs, (List.perm_insertionSort pairLE l).mem_iff]

/-- The enumeration `setList` is valid: it lists exactly the elements of
the set it is applied to. -/
theorem setList_toFinset (s : Finset Pair) : (setList s).toFinset = s := by
  ext a
  rw [List.mem_toFinset, setList, mem_sortPairs]
  exact Finset.mem_def.symm

/-- C5: when login fails or the gameweek cannot be extracted, the run
returns the corresponding failure message with noteworthy = false,
records no `save_state` call at all, and the stored baseline is exactly
what it was — independently of whether a write would have succeeded. -/
theorem claim_C5_failures_touch_nothing
    (e : Finset Pair → List Pair) (saveOk : Bool) (pairs : List Pair)
    (chip : Option String) (gwStr : Option String) (st : PersistedState) :
    check_for_new_transfers e false saveOk pairs chip gwStr st
        = .ok (loginFailedMsg, false, none) ∧
    check_for_new_transfers e true saveOk pairs chip none st
        = .ok (scrapingErrorMsg, false, none) ∧
    nextState e false saveOk pairs chip gwStr st = st ∧
    nextState e true saveOk pairs chip none st = st := by
  refine ⟨rfl, rfl, ?_, ?_⟩ <;> simp [nextState, check_for_new_transfers, applyWrite]

/-- C2: whenever the scraped gameweek differs from the stored one
(including a first run with no stored gameweek), the run reports the
rollover, always writes the new gameweek together with the full scraped
pair list — even an empty one — and is noteworthy exactly when that list
is non-empty. -/
theorem claim_C2_rollover
    (e : Finset Pair → List Pair) (pairs : List Pair) (chip : Option String)
    (s : String) (st : PersistedState)
    (hgw : st.gameweek ≠ some (pyInt s)) :
    check_for_new_transfers e true true pairs chip (some s) st
      = .ok ((if pairs.isEmpty then gwUpdatedMsg (pyInt s)
              else firstTransfersMsg (pyInt s) chip pairs),
             !pairs.isEmpty, some ⟨pyInt s, pairs⟩) ∧
    nextState e true true pairs chip (some s) st = ⟨some (pyInt s), pairs⟩ := by
  have h' : some (pyInt s) ≠ st.gameweek := fun h => hgw h.symm
  constructor
  · by_cases hp : pairs.isEmpty <;>
      simp [check_for_new_transfers, h', hp]
  · by_cases hp : pairs.isEmpty <;>
      simp [nextState, check_for_new_transfers, applyWrite, h', hp]

/-- Witness for C2 at a concrete first run. -/
theorem claim_C2_rollover_witness :
    check_for_new_transfers setList true true [("M", "N")] none (some "5")
        ⟨none, []⟩
      = .ok (firstTransfersMsg 5 none [("M", "N")], true, some ⟨5, [("M", "N")]⟩) := by
  have h := (claim_C2_rollover setList [("M", "N")] none "5" ⟨none, []⟩ (by decide)).1
  exact h.trans (by decide)

/-- C1: when the scraped gameweek equals the stored one, an empty set
difference yields the no-new-transfers message, not noteworthy, with no
write; a non-empty difference yields the new-transfers message built
from an enumeration of exactly that set difference, noteworthy, and the
write stores the gameweek with the full current pair list. -/
theorem claim_C1_same_period
    (e : Finset Pair → List Pair) (he : ∀ fs : Finset Pair, (e fs).toFinset = fs)
    (pairs : List Pair) (chip : Option String) (s : String)
    (st : PersistedState) (hgw : st.gameweek = some (pyInt s)) :
    (pairs.toFinset \ st.transfers.toFinset = ∅ →
      check_for_new_transfers e true true pairs chip (some s) st
          = .ok (noNewMsg (pyInt s), false, none) ∧
      nextState e true true pairs chip (some s) st = st) ∧
    (pairs.toFinset \ st.transfers.toFinset ≠ ∅ →
      check_for_new_transfers e true true pairs chip (some s) st
          = .ok (newTransfersMsg (pyInt s) chip
                  (e (pairs.toFinset \ st.transfers.toFinset)),
                 true, some ⟨pyInt s, pairs⟩) ∧
      (e (pairs.toFinset \ st.transfers.toFinset)).toFinset
          = pairs.toFinset \ st.transfers.toFinset ∧
      nextState e true true pairs chip (some s) st
          = ⟨some (pyInt s), pairs⟩) := by
  constructor
  · intro hd
    constructor <;>
      simp [check_for_new_transfers, nextState, applyWrite, hgw, hd]
  · intro hd
    refine ⟨?_, he _, ?_⟩ <;>
      simp [check_for_new_transfers, nextState, applyWrite, hgw, hd]

/-- Witness for C1, spec Example 3: one stored pair, one genuinely new
pair in the snapshot. -/
theorem claim_C1_same_period_witness :
    check_for_new_transfers setList true true [("X", "Y"), ("P", "Q")] none
        (some "5") ⟨some 5, [("X", "Y")]⟩
      = .ok (newTransfersMsg 5 none [("P", "Q")], true,
             some ⟨5, [("X", "Y"), ("P", "Q")]⟩) := by
  have h := ((claim_C1_same_period setList setList_toFinset
      [("X", "Y"), ("P", "Q")] none "5" ⟨some 5, [("X", "Y")]⟩
      (by decide)).2 (by decide)).1
  exact h.trans (by decide)

/-- C4: reconciling the same observation twice in a row, the second run
starting from the state the first one left behind, is never noteworthy
the second time. -/
theorem claim_C4_idempotent
    (e : Finset Pair → List Pair) (loginOk : Bool) (pairs : List Pair)
    (chip : Option String) (gwStr : Option String) (st : PersistedState) :
    noteOf (check_for_new_transfers e loginOk true pairs chip gwStr
        (nextState e loginOk true pairs chip gwStr st)) = false := by
  cases loginOk with
  | false => simp [noteOf, nextState, check_for_new_transfers]
  | true =>
    cases gwStr with
    | none => simp [noteOf, nextState, check_for_new_transfers]
    | some s =>
      by_cases hgw : some (pyInt s) = st.gameweek
      · by_cases hd : pairs.toFinset \ st.transfers.toFinset = ∅
        · simp [noteOf, nextState, check_for_new_transfers, applyWrite, hgw, hd]
        · simp [noteOf, nextState, check_for_new_transfers, applyWrite, hgw, hd,
            Finset.sdiff_self]
      · by_cases hp : pairs.isEmpty <;>
          simp [noteOf, nextState, check_for_new_transfers, applyWrite, hgw, hp,
            Finset.sdiff_self]

/-- Python key membership agrees with membership in the field names. -/
theorem hasKey_iff (fields : List (String × Json)) (k : String) :
    hasKey fields k = true ↔ k ∈ fields.map Prod.fst := by
  simp [hasKey, List.any_eq_true, List.mem_map]

/-- C7: loading the stored document yields the default empty state when
the file is absent or unparseable, or the document is not a dict with
both the gameweek and the transfers keys; a well-shaped document is
returned unchanged. -/
theorem claim_C7_load_state (file : Option Json) :
    (file = none → load_state file = defaultStateDoc) ∧
    ∀ d, file = some d →
      (valid_doc d → load_state file = d) ∧
      (¬ valid_doc d → load_state file = defaultStateDoc) := by
  constructor
  · rintro rfl
    rfl
  · rintro d rfl
    constructor
    · rintro ⟨fields, rfl, h1, h2⟩
      simp [load_state, (hasKey_iff _ _).mpr h1, (hasKey_iff _ _).mpr h2]
    · intro hnv
      cases d with
      | obj fields =>
        by_cases hb : (hasKey fields "gameweek" && hasKey fields "transfers") = true
        · rw [Bool.and_eq_true] at hb
          exact absurd
            ⟨fields, rfl, (hasKey_iff _ _).mp hb.1, (hasKey_iff _ _).mp hb.2⟩ hnv
        · simp [load_state, hb]
      | null => simp [load_state]
      | bool b => simp [load_state]
      | num n => simp [load_state]
      | str s => simp [load_state]
      | arr items => simp [load_state]

/-- Witness for C7 at a legacy bare-array document. -/
theorem claim_C7_load_state_witness :
    load_state (some (.arr [])) = defaultStateDoc :=
  ((claim_C7_load_state (some (.arr []))).2 _ rfl).2 (by
    rintro ⟨fields, h, -, -⟩
    cases h)

/-- Unfolding the character data of a left fold of string appends. -/
theorem data_foldl_append (l : List String) (s : String) :
    (l.foldl (fun r t => r ++ t) s).data
      = s.data ++ (l.map String.data).flatten := by
  induction l generalizing s with
  | nil => simp
  | cons a rest ih => simp [ih, String.data_append]

/-- Character data of a joined list of strings. -/
theorem data_join (l : List String) :
    (String.join l).data = (l.map String.data).flatten := by
  simpa [String.join] using data_foldl_append l ""

/-- C9: escape_markdown maps each character whose code point lies in the
fixed reserved set (underscore, asterisk, brackets, parentheses, tilde,
backtick, greater-than, hash, plus, minus, equals, pipe, braces, dot,
exclamation mark) to a backslash followed by that character, and every
other character to itself. -/
theorem claim_C9_escape_markdown (text : String) :
    (escape_markdown text).data
      = (text.data.map fun c =>
          if c ∈ (([95, 42, 91, 93, 40, 41, 126, 96, 62, 35, 43, 45, 61, 124,
              123, 125, 46, 33] : List Nat).map Char.ofNat)
          then ['\\', c] else [c]).flatten := by
  have hset : (([95, 42, 91, 93, 40, 41, 126, 96, 62, 35, 43, 45, 61, 124,
      123, 125, 46, 33] : List Nat).map Char.ofNat) = escape_chars := by decide
  rw [hset, escape_markdown, data_join, List.map_map]
  have hfun : (String.data ∘ fun c =>
      if c ∈ escape_chars then String.mk ['\\', c] else String.mk [c])
      = fun c => if c ∈ escape_chars then ['\\', c] else [c] := by
    funext c
    by_cases h : c ∈ escape_chars <;> simp [h]
  rw [hfun]

/-- Every write performed by the engine stores the integer conversion of
the scraped gameweek token together with the full scraped pair list. -/
theorem write_gameweek
    (e : Finset Pair → List Pair) (loginOk saveOk : Bool) (pairs : List Pair)
    (chip : Option String) (s : String) (st : PersistedState)
    (m : String) (b : Bool) (w : SaveCall)
    (hw : check_for_new_transfers e loginOk saveOk pairs chip (some s) st
        = .ok (m, b, some w)) :
    w = ⟨pyInt s, pairs⟩ := by
  cases loginOk with
  | false => simp [check_for_new_transfers] at hw
  | true =>
    simp only [check_for_new_transfers, Bool.not_true, Bool.false_eq_true,
      if_false] at hw
    repeat' split at hw
    all_goals simp_all

/-- C10: the scraped gameweek token is converted to an integer before the
comparison and before any write, so tokens with equal numeric value are
the same period for the whole run, and any performed write stores that
integer as the gameweek. -/
theorem claim_C10_numeric_period
    (e : Finset Pair → List Pair) (loginOk saveOk : Bool) (pairs : List Pair)
    (chip : Option String) (st : PersistedState) (s1 s2 : String)
    (h : pyInt s1 = pyInt s2) :
    check_for_new_transfers e loginOk saveOk pairs chip (some s1) st
      = check_for_new_transfers e loginOk saveOk pairs chip (some s2) st ∧
    ∀ m b w, check_for_new_transfers e loginOk saveOk pairs chip (some s1) st
        = .ok (m, b, some w) → w.gameweek = pyInt s1 := by
  constructor
  · simp only [check_for_new_transfers, h]
  · intro m b w hw
    rw [write_gameweek e loginOk saveOk pairs chip s1 st m b w hw]

/-- Witness for C10 at a zero-padded token. -/
theorem claim_C10_numeric_period_witness :
    check_for_new_transfers setList true true [] none (some "05") ⟨none, []⟩
      = check_for_new_transfers setList true true [] none (some "5") ⟨none, []⟩ ∧
    pyInt "05" = 5 :=
  ⟨(claim_C10_numeric_period setList true true [] none ⟨none, []⟩ "05" "5"
      (by decide)).1, by decide⟩

/-- Counterexample to C6 as stated: when the state-file write fails
during a first-run rollover, the exception escapes the entry point — the
run yields no outcome value at all. -/
theorem claim_C6_counterexample :
    check_for_new_transfers setList true false [("A", "B")] none (some "5")
        ⟨none, []⟩ = .error () := by decide

/-- C6 (amended): when every state write succeeds the entry point always
returns an outcome value; when the state write fails, the exception
aborts the run, and any run that does return an outcome despite the
failing writer is one that never wrote — it is not noteworthy, so a
write failure never produces a false new-transfers notification. -/
theorem claim_C6_amended
    (e : Finset Pair → List Pair) (loginOk : Bool) (pairs : List Pair)
    (chip : Option String) (gwStr : Option String) (st : PersistedState) :
    (∃ out, check_for_new_transfers e loginOk true pairs chip gwStr st
        = .ok out) ∧
    (∀ m b w, check_for_new_transfers e loginOk false pairs chip gwStr st
        = .ok (m, b, w) → b = false ∧ w = none) := by
  constructor
  · cases loginOk with
    | false => exact ⟨_, rfl⟩
    | true =>
      cases gwStr with
      | none => exact ⟨_, rfl⟩
      | some s =>
        by_cases hgw : some (pyInt s) = st.gameweek
        · by_cases hd : pairs.toFinset \ st.transfers.toFinset = ∅
          · exact ⟨(noNewMsg (pyInt s), false, none),
              by simp [check_for_new_transfers, hgw, hd]⟩
          · exact ⟨(newTransfersMsg (pyInt s) chip
                (e (pairs.toFinset \ st.transfers.toFinset)), true,
                some ⟨pyInt s, pairs⟩),
              by simp [check_for_new_transfers, hgw, hd]⟩
        · by_cases hp : pairs.isEmpty
          · exact ⟨(gwUpdatedMsg (pyInt s), false, some ⟨pyInt s, pairs⟩),
              by simp [check_for_new_transfers, hgw, hp]⟩
          · exact ⟨(firstTransfersMsg (pyInt s) chip pairs, true,
                some ⟨pyInt s, pairs⟩),
              by simp [check_for_new_transfers, hgw, hp]⟩
  · intro m b w hw
    cases loginOk with
    | false =>
      simp [check_for_new_transfers] at hw
      exact ⟨hw.2.1, hw.2.2.symm⟩
    | true =>
      cases gwStr with
      | none =>
        simp [check_for_new_transfers] at hw
        exact ⟨hw.2.1, hw.2.2.symm⟩
      | some s =>
        simp only [check_for_new_transfers, Bool.not_true, Bool.false_eq_true,
          if_false] at hw
        repeat' split at hw
        all_goals simp_all

/-- Witness for C6 (amended) at a run whose write fails but which never
writes: it reports no new transfers and records no save call. -/
theorem claim_C6_amended_witness :
    (∃ out, check_for_new_transfers setList true true [("A", "B")] none
        (some "5") ⟨some 5, [("A", "B")]⟩ = .ok out) ∧
    (false : Bool) = false ∧ (none : Option SaveCall) = none :=
  ⟨(claim_C6_amended setList true [("A", "B")] none (some "5")
      ⟨some 5, [("A", "B")]⟩).1,
   (claim_C6_amended setList true [("A", "B")] none (some "5")
      ⟨some 5, [("A", "B")]⟩).2 (noNewMsg 5) false none (by decide)⟩

/-- C8 evidence: two runs that differ only in the order the runtime
happens to enumerate the delta set — both orders list exactly the same
delta — return different message strings, so the displayed delta order
is not determined by the snapshot and the stored state. -/
theorem claim_C8_order_dependence :
    ([(("A", "B") : Pair), ("C", "D")].toFinset
        = [(("C", "D") : Pair), ("A", "B")].toFinset) ∧
    ([(("A", "B") : Pair), ("C", "D")].Nodup ∧
        [(("C", "D") : Pair), ("A", "B")].Nodup) ∧
    check_for_new_transfers (fun _ => [("A", "B"), ("C", "D")]) true true
        [("A", "B"), ("C", "D")] none (some "5") ⟨some 5, []⟩
      ≠ check_for_new_transfers (fun _ => [("C", "D"), ("A", "B")]) true true
        [("A", "B"), ("C", "D")] none (some "5") ⟨some 5, []⟩ := by
  decide

/-- Counterexample to C3 as stated: within one period, a pair observed
and reported in an earlier successful check disappears from the
persisted set as soon as a later snapshot omits it while bringing a new
pair, and it is then re-reported as new when it reappears. -/
theorem claim_C3_counterexample :
    noteOf (check_for_new_transfers setList true true [("A", "B")] none
        (some "5") ⟨some 5, []⟩) = true ∧
    runList "5" [[("A", "B")], [("C", "D")]] ⟨some 5, []⟩
      = ⟨some 5, [("C", "D")]⟩ ∧
    (("A", "B") : Pair)
        ∉ (runList "5" [[("A", "B")], [("C", "D")]] ⟨some 5, []⟩).transfers ∧
    noteOf (check_for_new_transfers setList true true [("A", "B")] none
        (some "5")
        (runList "5" [[("A", "B")], [("C", "D")]] ⟨some 5, []⟩)) = true := by
  decide

/-- A same-period run keeps the stored gameweek. -/
theorem step_gameweek (s : String) (pairs : List Pair) (st : PersistedState)
    (h : st.gameweek = some (pyInt s)) :
    (nextState setList true true pairs none (some s) st).gameweek
      = some (pyInt s) := by
  by_cases hd : pairs.toFinset \ st.transfers.toFinset = ∅ <;>
    simp [nextState, check_for_new_transfers, applyWrite, h, hd]

/-- After a same-period run, the stored pair set contains the whole
snapshot just observed. -/
theorem step_superset (s : String) (pairs : List Pair) (st : PersistedState)
    (h : st.gameweek = some (pyInt s)) :
    pairs.toFinset
      ⊆ (nextState setList true true pairs none (some s) st).transfers.toFinset := by
  by_cases hd : pairs.toFinset \ st.transfers.toFinset = ∅
  · have hsub := Finset.sdiff_eq_empty_iff_subset.mp hd
    simp only [nextState, check_for_new_transfers, applyWrite, h, hd]
    simpa [h] using hsub
  · simp [nextState, check_for_new_transfers, applyWrite, h, hd]

/-- A same-period run sequence keeps the stored gameweek. -/
theorem runList_gameweek (s : String) (l : List (List Pair))
    (st : PersistedState) (h : st.gameweek = some (pyInt s)) :
    (runList s l st).gameweek = some (pyInt s) := by
  induction l generalizing st with
  | nil => simpa [runList] using h
  | cons a rest ih =>
    simp only [runList, List.foldl_cons]
    exact ih _ (step_gameweek s a st h)

/-- C3 (amended): within one period, the stored pair set after any check
contains every pair observed by any earlier check — and a pair observed
earlier is never part of a later delta — provided the source never drops
an observed pair from a later snapshot (each snapshot of the period
contains all pairs of the earlier snapshots); without that proviso the
property fails, as the recorded counterexample shows, because a save
replaces the stored list with the current snapshot only. -/
theorem claim_C3_amended (s : String) (snaps : List (List Pair))
    (st0 : PersistedState) (h0 : st0.gameweek = some (pyInt s))
    (hmono : snaps.Pairwise (fun a b => a.toFinset ⊆ b.toFinset))
    (i j : Nat) (hi : i < snaps.length) (hj : j ≤ i) :
    (snaps.get ⟨j, lt_of_le_of_lt hj hi⟩).toFinset
        ⊆ (runList s (snaps.take (i + 1)) st0).transfers.toFinset ∧
    (j < i → ∀ p ∈ snaps.get ⟨j, lt_of_le_of_lt hj hi⟩,
      p ∉ (snaps.get ⟨i, hi⟩).toFinset
          \ (runList s (snaps.take i) st0).transfers.toFinset) := by
  have key : ∀ (k : Nat) (hk : k < snaps.length),
      (snaps.get ⟨k, hk⟩).toFinset
        ⊆ (runList s (snaps.take (k + 1)) st0).transfers.toFinset := by
    intro k hk
    have hdec : snaps.take (k + 1) = snaps.take k ++ [snaps.get ⟨k, hk⟩] := by
      rw [List.take_succ]
      simp [List.getElem?_eq_getElem hk]
    rw [hdec, runList, List.foldl_append]
    simp only [List.foldl_cons, List.foldl_nil]
    exact step_superset s _ _ (runList_gameweek s _ st0 h0)
  have hGetSub : ∀ (a b : Nat) (ha : a < snaps.length) (hb : b < snaps.length),
      a < b → (snaps.get ⟨a, ha⟩).toFinset ⊆ (snaps.get ⟨b, hb⟩).toFinset :=
    fun a b ha hb hab => List.pairwise_iff_get.mp hmono ⟨a, ha⟩ ⟨b, hb⟩ hab
  constructor
  · rcases Nat.eq_or_lt_of_le hj with rfl | hlt
    · exact key j hi
    · exact (hGetSub j i (lt_of_le_of_lt hj hi) hi hlt).trans (key i hi)
  · intro hji p hp
    have hipos : 0 < i := Nat.lt_of_le_of_lt (Nat.zero_le j) hji
    obtain ⟨m, rfl⟩ : ∃ m, i = m + 1 :=
      ⟨i - 1, (Nat.succ_pred_eq_of_pos hipos).symm⟩
    have hm : m < snaps.length := lt_trans (Nat.lt_succ_self m) hi
    have hjm : j ≤ m := Nat.lt_succ_iff.mp hji
    have hpstate : p ∈ (runList s (snaps.take (m + 1)) st0).transfers.toFinset := by
      rcases Nat.eq_or_lt_of_le hjm with rfl | hlt
      · exact key j hm (List.mem_toFinset.mpr hp)
      · exact (hGetSub j m (lt_of_le_of_lt hjm hm) hm hlt).trans (key m hm)
          (List.mem_toFinset.mpr hp)
    intro hmem
    exact absurd hpstate (Finset.mem_sdiff.mp hmem).2

/-- Witness for C3 (amended): two cumulative snapshots of one period;
the pair observed first is still in the stored set after the second
check. -/
theorem claim_C3_amended_witness :
    ([(("A", "B") : Pair)]).toFinset
      ⊆ (runList "5" ([[("A", "B")], [("A", "B"), ("C", "D")]].take 2)
          ⟨some 5, []⟩).transfers.toFinset :=
  (claim_C3_amended "5" [[("A", "B")], [("A", "B"), ("C", "D")]] ⟨some 5, []⟩
    (by decide) (by decide) 1 0 (by decide) (by decide)).1

end FplBot
